import Mathlib

/-!
Verification of the Orange Pi 5 Plus kernel builder (`builder.c`).

This file shallowly embeds the parts of the builder relevant to the
specification claims: the command-line argument loop of `main`, the
default build configuration, the job-count resolution, the staged build
pipeline of `main` with its fatal / non-fatal error policy, and the
individual stage functions `execute_command`, `download_mali_blobs`,
`download_kernel_source`, `setup_vulkan_support`, `configure_kernel`
and `verify_gpu_installation`.

External effects (shell commands, the filesystem, `chdir`, `fopen`,
`mkdir`, `sysconf`) are represented by explicit boolean or integer
oracles passed to the embedded functions; the functions themselves are
direct transliterations of the C control flow.  C `int` flags holding
only 0/1 become `Bool`; the `jobs` counter, which can receive any
`atoi` result, becomes `Int`.  `strncpy` truncation of the fixed-size
string buffers is not modelled (no claim exercises strings near the
63/127/511-byte limits), and `atoi` is modelled without `int` overflow.
-/

/-- The `build_config_t` structure of `builder.c`. -/
structure BuildConfig where
  kernel_version : String
  build_dir : String
  cross_compile : String
  arch : String
  defconfig : String
  jobs : Int
  verbose : Bool
  clean_build : Bool
  install_gpu_blobs : Bool
  enable_opencl : Bool
  enable_vulkan : Bool
deriving Repr, DecidableEq

/-- The three local option variables of `main` (`no_install`, `cleanup`,
`verify_gpu`) that live next to the configuration record. -/
structure MainOpts where
  no_install : Bool
  cleanup : Bool
  verify_gpu : Bool
deriving Repr, DecidableEq

/-- The initializer of `config` in `main`: kernel 6.8.0, `/tmp/kernel_build`,
cross prefix `aarch64-linux-gnu-`, arch `arm64`, `rockchip_linux_defconfig`,
`jobs = 0` (resolved to the processor count later), GPU, OpenCL and Vulkan
all enabled by default. -/
def defaultConfig : BuildConfig :=
  { kernel_version := "6.8.0"
    build_dir := "/tmp/kernel_build"
    cross_compile := "aarch64-linux-gnu-"
    arch := "arm64"
    defconfig := "rockchip_linux_defconfig"
    jobs := 0
    verbose := false
    clean_build := false
    install_gpu_blobs := true
    enable_opencl := true
    enable_vulkan := true }

/-- Initial values of `no_install`, `cleanup`, `verify_gpu` in `main`. -/
def defaultOpts : MainOpts :=
  { no_install := false, cleanup := false, verify_gpu := false }

/-- Accumulate the leading decimal digits, as `atoi` does after the sign. -/
def atoiDigits : List Char → Nat → Nat
  | [], acc => acc
  | ch :: rest, acc =>
      if ch.isDigit then atoiDigits rest (acc * 10 + (ch.toNat - 48)) else acc

/-- C `atoi`: skip leading whitespace, read an optional sign and then the
leading run of decimal digits; everything after the first non-digit is
ignored and a digit-free string yields 0.  Overflow (undefined behaviour
in C) is not modelled. -/
def atoi (s : String) : Int :=
  let cs := s.toList.dropWhile Char.isWhitespace
  match cs with
  | '-' :: rest => - (atoiDigits rest 0 : Int)
  | '+' :: rest => (atoiDigits rest 0 : Int)
  | _ => (atoiDigits cs 0 : Int)

/-- Outcome of the argument loop of `main`: either `-h`/`--help` was seen
(print usage, exit 0), or the loop ran to completion leaving a
configuration and the three local option flags. -/
inductive ParseResult where
  | helpRequested
  | parsed (c : BuildConfig) (o : MainOpts)
deriving Repr, DecidableEq

/-- The argument loop of `main` (builder.c), transliterated branch by
branch and in branch order.  Value flags consume the following token via
`++i` and are silently ignored when the value is missing (`++i < argc`
fails, the loop exits with no state change).  The chain has no final
`else`: a token matching no branch leaves the state untouched and the
loop moves on. -/
def parse_arguments (c : BuildConfig) (o : MainOpts) : List String → ParseResult
  | [] => .parsed c o
  | arg :: rest =>
    if arg = "-h" ∨ arg = "--help" then .helpRequested
    else if arg = "-v" ∨ arg = "--version" then
      match rest with
      | v :: rest2 => parse_arguments { c with kernel_version := v } o rest2
      | [] => .parsed c o
    else if arg = "-j" ∨ arg = "--jobs" then
      match rest with
      | v :: rest2 => parse_arguments { c with jobs := atoi v } o rest2
      | [] => .parsed c o
    else if arg = "-d" ∨ arg = "--build-dir" then
      match rest with
      | v :: rest2 => parse_arguments { c with build_dir := v } o rest2
      | [] => .parsed c o
    else if arg = "-c" ∨ arg = "--clean" then
      parse_arguments { c with clean_build := true } o rest
    else if arg = "--defconfig" then
      match rest with
      | v :: rest2 => parse_arguments { c with defconfig := v } o rest2
      | [] => .parsed c o
    else if arg = "--cross-compile" then
      match rest with
      | v :: rest2 => parse_arguments { c with cross_compile := v } o rest2
      | [] => .parsed c o
    else if arg = "--verbose" then
      parse_arguments { c with verbose := true } o rest
    else if arg = "--no-install" then
      parse_arguments c { o with no_install := true } rest
    else if arg = "--cleanup" then
      parse_arguments c { o with cleanup := true } rest
    else if arg = "--enable-gpu" then
      parse_arguments { c with install_gpu_blobs := true } o rest
    else if arg = "--disable-gpu" then
      parse_arguments
        { c with install_gpu_blobs := false, enable_opencl := false, enable_vulkan := false }
        o rest
    else if arg = "--enable-opencl" then
      parse_arguments { c with enable_opencl := true } o rest
    else if arg = "--disable-opencl" then
      parse_arguments { c with enable_opencl := false } o rest
    else if arg = "--enable-vulkan" then
      parse_arguments { c with enable_vulkan := true } o rest
    else if arg = "--disable-vulkan" then
      parse_arguments { c with enable_vulkan := false } o rest
    else if arg = "--verify-gpu" then
      parse_arguments c { o with verify_gpu := true } rest
    else
      parse_arguments c o rest

/-- The flag tokens recognized by some branch of the argument loop. -/
def recognizedFlags : List String :=
  ["-h", "--help", "-v", "--version", "-j", "--jobs", "-d", "--build-dir",
   "-c", "--clean", "--defconfig", "--cross-compile", "--verbose",
   "--no-install", "--cleanup", "--enable-gpu", "--disable-gpu",
   "--enable-opencl", "--disable-opencl", "--enable-vulkan",
   "--disable-vulkan", "--verify-gpu"]

/-- The post-parse default for the job count in `main`: if no (nonzero)
job count was parsed, take the detected online-processor count
(`sysconf(_SC_NPROCESSORS_ONLN)`, passed here as `nprocs`). -/
def resolveJobs (c : BuildConfig) (nprocs : Int) : Int :=
  if c.jobs = 0 then nprocs else c.jobs

/-- `LOG_FILE` of builder.c. -/
def LOG_FILE : String := "/tmp/kernel_build.log"

/-- The command string built by `execute_command` when `show_output` is
nonzero: `snprintf(log_cmd, ..., "%s 2>&1 | tee -a %s", cmd, LOG_FILE)`.
No truncation occurs: the buffer has 100 bytes of headroom over
`MAX_CMD_LEN` and the added suffix is 36 bytes. -/
def composedShowCmd (cmd : String) : String :=
  cmd ++ " 2>&1 | tee -a " ++ LOG_FILE

/-- The command string built by `execute_command` when `show_output` is
zero: `snprintf(log_cmd, ..., "%s >> %s 2>&1", cmd, LOG_FILE)`. -/
def composedQuietCmd (cmd : String) : String :=
  cmd ++ " >> " ++ LOG_FILE ++ " 2>&1"

/-- `execute_command` of builder.c.  `sys` is the status `system(3)`
reports for a given command line.  The function returns 0 when that
status is 0 and -1 otherwise. -/
def execute_command (cmd : String) (show_output : Bool) (sys : String → Int) : Int :=
  let log_cmd := if show_output then composedShowCmd cmd else composedQuietCmd cmd
  if sys log_cmd ≠ 0 then -1 else 0

/-- Model of the external POSIX shell that `system(3)` invokes on the
composed command `cmd 2>&1 | tee -a LOG_FILE`: without `pipefail`, the
exit status of a pipeline is the exit status of its last command, here
the `tee` appending to the log, whatever status the wrapped command
itself exited with. -/
def pipelineStatus (_cmdStatus teeStatus : Int) : Int := teeStatus

/-- `download_mali_blobs` of builder.c, with the outcome of each external
effect passed in: creating `/tmp/mali_install`, `chdir` into it, the
firmware `wget`, the userspace-driver `wget`, the conditional
Vulkan-variant `wget` and the auxiliary `git clone`.  The last two only
log warnings, so the result does not depend on them. -/
def download_mali_blobs (_enable_vulkan mkdirOk chdirOk fwOk drvOk _vkOk _cloneOk : Bool) :
    Bool :=
  if mkdirOk = false then false
  else if chdirOk = false then false
  else if fwOk = false then false
  else if drvOk = false then false
  else true

/-- The first clone command of `download_kernel_source`: the shallow,
single-branch clone of the vendor (Joshua-Riek) Rockchip kernel fork. -/
def vendorCloneCmd : String :=
  "git clone --depth 1 --branch ubuntu-rockchip-6.8-opi5 https://github.com/Joshua-Riek/linux-rockchip.git linux"

/-- The fallback clone command of `download_kernel_source`: a shallow
clone of mainline at tag `v` followed by the configured kernel version. -/
def mainlineCloneCmd (version : String) : String :=
  "git clone --depth 1 --branch v" ++ version
    ++ " https://git.kernel.org/pub/scm/linux/kernel/git/torvalds/linux.git linux"

/-- `download_kernel_source` of builder.c: `chdir` to the build directory
(error return on failure), try the vendor clone, fall back to the mainline
clone tagged from the configured kernel version, and fail only when both
clones fail.  Returns the success flag together with the list of clone
commands attempted, in order. -/
def download_kernel_source (c : BuildConfig) (chdirOk : Bool) (exec : String → Bool) :
    Bool × List String :=
  if chdirOk = false then (false, [])
  else if exec vendorCloneCmd then (true, [vendorCloneCmd])
  else if exec (mainlineCloneCmd c.kernel_version) then
    (true, [vendorCloneCmd, mainlineCloneCmd c.kernel_version])
  else (false, [vendorCloneCmd, mainlineCloneCmd c.kernel_version])

/-- The Vulkan-capable Mali driver variant path probed by builder.c. -/
def maliVulkanDriverPath : String :=
  "/usr/lib/libmali-valhall-g610-g6p0-wayland-gbm-vulkan.so"

/-- The standard Mali driver path of builder.c. -/
def maliStandardDriverPath : String :=
  "/usr/lib/libmali-valhall-g610-g6p0-x11-wayland-gbm.so"

/-- The fields `setup_vulkan_support` prints into
`/usr/share/vulkan/icd.d/mali.json`. -/
structure VulkanIcd where
  file_format_version : String
  library_path : String
  api_version : String
deriving Repr, DecidableEq

/-- `setup_vulkan_support` of builder.c.  When the Vulkan flag is off it
returns success immediately.  Otherwise it fails exactly when
`create_directory("/usr/share/vulkan/icd.d")` fails (`mkdirOk`) or the
descriptor file cannot be opened for writing (`openOk`); on success it
writes format version 1.0.0, API version 1.2.131, and the Vulkan-variant
library path when `access` finds that file (`variantPresent`), else the
standard driver path.  The second component is the descriptor written,
`none` when nothing was written. -/
def setup_vulkan_support (enable_vulkan mkdirOk openOk variantPresent : Bool) :
    Bool × Option VulkanIcd :=
  if enable_vulkan = false then (true, none)
  else if mkdirOk = false then (false, none)
  else if openOk = false then (false, none)
  else
    (true, some
      { file_format_version := "1.0.0"
        library_path := if variantPresent then maliVulkanDriverPath else maliStandardDriverPath
        api_version := "1.2.131" })

/-- One timestamped log record: level and message. -/
structure LogEntry where
  level : String
  message : String
deriving Repr, DecidableEq

/-- The fixed configuration-directive block `configure_kernel` appends to
`.config`, verbatim from the `config_options` array of builder.c. -/
def config_options : List String :=
  ["CONFIG_ARCH_ROCKCHIP=y",
   "CONFIG_ARM64=y",
   "CONFIG_ROCKCHIP_RK3588=y",
   "CONFIG_COMMON_CLK_RK808=y",
   "CONFIG_ROCKCHIP_IOMMU=y",
   "CONFIG_ROCKCHIP_PM_DOMAINS=y",
   "CONFIG_ROCKCHIP_THERMAL=y",
   "CONFIG_DRM=y",
   "CONFIG_DRM_ROCKCHIP=y",
   "CONFIG_ROCKCHIP_VOP2=y",
   "CONFIG_DRM_PANFROST=y",
   "CONFIG_DRM_PANEL_BRIDGE=y",
   "CONFIG_DRM_PANEL_SIMPLE=y",
   "CONFIG_MALI_MIDGARD=m",
   "CONFIG_MALI_PLATFORM_NAME=\"devicetree\"",
   "CONFIG_MALI_CSF_SUPPORT=y",
   "CONFIG_MALI_DEVFREQ=y",
   "CONFIG_MALI_DMA_FENCE=y",
   "CONFIG_DMA_CMA=y",
   "CONFIG_CMA=y",
   "CONFIG_CMA_SIZE_MBYTES=128",
   "CONFIG_DMA_SHARED_BUFFER=y",
   "CONFIG_SYNC_FILE=y",
   "CONFIG_PHY_ROCKCHIP_INNO_USB2=y",
   "CONFIG_PHY_ROCKCHIP_NANENG_COMBO_PHY=y",
   "CONFIG_ROCKCHIP_SARADC=y",
   "CONFIG_MMC_DW_ROCKCHIP=y",
   "CONFIG_PCIE_ROCKCHIP_HOST=y",
   "CONFIG_STAGING_MEDIA=y",
   "CONFIG_VIDEO_ROCKCHIP_RGA=m",
   "CONFIG_VIDEO_ROCKCHIP_VDEC=m",
   "CONFIG_ROCKCHIP_VPU=y",
   "CONFIG_VIDEO_HANTRO=m",
   "CONFIG_CPU_FREQ=y",
   "CONFIG_CPU_FREQ_DEFAULT_GOV_ONDEMAND=y",
   "CONFIG_CPU_FREQ_GOV_PERFORMANCE=y",
   "CONFIG_CPU_FREQ_GOV_POWERSAVE=y",
   "CONFIG_CPU_FREQ_GOV_USERSPACE=y",
   "CONFIG_CPU_FREQ_GOV_SCHEDUTIL=y",
   "CONFIG_CPUFREQ_DT=y",
   "CONFIG_ARM_ROCKCHIP_CPUFREQ=y",
   "CONFIG_FB=y",
   "CONFIG_FB_SIMPLE=y",
   "CONFIG_LOGO=y",
   "CONFIG_LOGO_LINUX_CLUT224=y"]

/-- What `configure_kernel` leaves behind: its return value, the
directive lines appended to `.config`, and the log records it emitted. -/
structure ConfigureOutcome where
  ok : Bool
  appended : List String
  logs : List LogEntry
deriving Repr, DecidableEq

/-- `configure_kernel` of builder.c.  `chdirOk` is the outcome of the
`chdir` into the kernel tree, `exec` the success of each `make`
invocation, `openOk` whether `fopen(".config", "a")` yields a handle.
The directive block is appended only inside `if (config_file)`; there is
no `else`, so a failed open is silent and the function continues to
`make olddefconfig` and its success return. -/
def configure_kernel (c : BuildConfig) (chdirOk : Bool) (exec : String → Bool)
    (openOk : Bool) : ConfigureOutcome :=
  let l0 : List LogEntry := [⟨"INFO", "Configuring kernel with Mali GPU support..."⟩]
  if chdirOk = false then
    { ok := false, appended := []
      logs := l0 ++ [⟨"ERROR", "Failed to change to kernel directory"⟩] }
  else
    let l1 := if c.clean_build then
        (l0 ++ [⟨"INFO", "Cleaning previous build artifacts..."⟩]) ++
          (if exec "make mrproper" then [] else
            [⟨"WARNING", "Failed to clean build artifacts"⟩])
      else l0
    let defcOk := exec ("make " ++ c.defconfig)
    let l2 := if defcOk then l1 else
      l1 ++ [⟨"WARNING", "Failed to use specific defconfig, trying generic..."⟩]
    if defcOk = false ∧ exec "make defconfig" = false then
      { ok := false, appended := []
        logs := l2 ++ [⟨"ERROR", "Failed to configure kernel"⟩] }
    else
      let l3 := l2 ++
        [⟨"INFO", "Enabling RK3588, Mali GPU, and hardware acceleration configurations..."⟩]
      let appended := if openOk then config_options else []
      let l4 := if exec "make olddefconfig" then l3 else
        l3 ++ [⟨"WARNING", "Failed to resolve config dependencies"⟩]
      { ok := true, appended := appended
        logs := l4 ++ [⟨"SUCCESS", "Kernel configured successfully with Mali GPU support"⟩] }

/-- `verify_gpu_installation` of builder.c: error return when the Mali
firmware file or the Mali driver library is absent; the OpenCL and
Vulkan probes that follow (`clinfo` / `vulkaninfo` greps, run only when
the respective descriptor file exists) log successes or warnings but
never change the return value. -/
def verify_gpu_installation
    (fwPresent drvPresent _oclIcdPresent _vkIcdPresent _clinfoMali _vulkaninfoMali : Bool) :
    Bool :=
  if fwPresent = false then false
  else if drvPresent = false then false
  else true

/-- Labels for the stage functions `main` can invoke, in its source
order. -/
inductive Step where
  | setupEnv
  | installPrereq
  | downloadBlobs
  | installDrivers
  | setupOpenCL
  | setupVulkan
  | downloadKernel
  | downloadPatches
  | configureKernel
  | buildKernel
  | installKernel
  | verifyGpu
  | cleanupBuild
deriving Repr, DecidableEq

/-- The boolean outcome of each call `main` makes, including the two
pre-pipeline checks.  `downloadPatches`, `verifyGpu` and `cleanupBuild`
are carried for completeness but never read by the pipeline: `main`
discards those calls' return values. -/
structure StepResults where
  depsOk : Bool
  rootOk : Bool
  setupEnv : Bool
  installPrereq : Bool
  downloadBlobs : Bool
  installDrivers : Bool
  setupOpenCL : Bool
  setupVulkan : Bool
  downloadKernel : Bool
  downloadPatches : Bool
  configureKernel : Bool
  buildKernel : Bool
  installKernel : Bool
  verifyGpu : Bool
  cleanupBuild : Bool
deriving Repr, DecidableEq

/-- All calls succeed. -/
def allOk : StepResults :=
  { depsOk := true, rootOk := true, setupEnv := true, installPrereq := true
    downloadBlobs := true, installDrivers := true, setupOpenCL := true
    setupVulkan := true, downloadKernel := true, downloadPatches := true
    configureKernel := true, buildKernel := true, installKernel := true
    verifyGpu := true, cleanupBuild := true }

/-- The back half of `main` after the GPU block: kernel source download
(fatal), the non-critical patches clone (result ignored), configure
(fatal), build (fatal), then unless `no_install` the install (fatal)
followed, when `verify_gpu` was requested and GPU blobs are on, by the
verification call whose result is discarded; finally the optional
cleanup.  Returns the exit status and the executed-call trace. -/
def pipelineTail (c : BuildConfig) (o : MainOpts) (rs : StepResults) (t : List Step) :
    Int × List Step :=
  let t7 := t ++ [Step.downloadKernel]
  if rs.downloadKernel = false then (1, t7) else
  let t8 := t7 ++ [Step.downloadPatches]
  let t9 := t8 ++ [Step.configureKernel]
  if rs.configureKernel = false then (1, t9) else
  let t10 := t9 ++ [Step.buildKernel]
  if rs.buildKernel = false then (1, t10) else
  if o.no_install = false then
    let t11 := t10 ++ [Step.installKernel]
    if rs.installKernel = false then (1, t11) else
    let t12 := if o.verify_gpu && c.install_gpu_blobs then t11 ++ [Step.verifyGpu] else t11
    let t13 := if o.cleanup then t12 ++ [Step.cleanupBuild] else t12
    (0, t13)
  else
    let t13 := if o.cleanup then t10 ++ [Step.cleanupBuild] else t10
    (0, t13)

/-- The build process of `main` after argument parsing and job
resolution: dependency and root checks (each returning 1 on failure with
no stage run), environment setup and prerequisites (fatal), the GPU
block (blob download, driver install, OpenCL setup, Vulkan setup, each
fatal) executed only when `install_gpu_blobs` is set, then
`pipelineTail`.  Every `goto error` of the C source becomes an
early `(1, trace)` return. -/
def runPipeline (c : BuildConfig) (o : MainOpts) (rs : StepResults) : Int × List Step :=
  if rs.depsOk = false then (1, []) else
  if rs.rootOk = false then (1, []) else
  let t1 := [Step.setupEnv]
  if rs.setupEnv = false then (1, t1) else
  let t2 := t1 ++ [Step.installPrereq]
  if rs.installPrereq = false then (1, t2) else
  if c.install_gpu_blobs then
    let t3 := t2 ++ [Step.downloadBlobs]
    if rs.downloadBlobs = false then (1, t3) else
    let t4 := t3 ++ [Step.installDrivers]
    if rs.installDrivers = false then (1, t4) else
    let t5 := t4 ++ [Step.setupOpenCL]
    if rs.setupOpenCL = false then (1, t5) else
    let t6 := t5 ++ [Step.setupVulkan]
    if rs.setupVulkan = false then (1, t6) else
    pipelineTail c o rs t6
  else
    pipelineTail c o rs t2

/-- `main` end to end: parse the arguments from the default
configuration, short-circuit on `-h`/`--help` with exit 0 and no stage
run, otherwise resolve the job count and run the pipeline. -/
def builder_main (args : List String) (nprocs : Int) (rs : StepResults) :
    Int × List Step :=
  match parse_arguments defaultConfig defaultOpts args with
  | .helpRequested => (0, [])
  | .parsed c o => runPipeline { c with jobs := resolveJobs c nprocs } o rs
set_option maxHeartbeats 1000000 in
/-- Walking the argument loop can only switch `enable_opencl` on via an
explicit `--enable-opencl` token, only switch `enable_vulkan` on via an
explicit `--enable-vulkan` token, and only change `jobs` via a `-j` or
`--jobs` token. -/
theorem parse_preserve (c : BuildConfig) (o : MainOpts) (args : List String) :
    ∀ (c' : BuildConfig) (o' : MainOpts),
      parse_arguments c o args = .parsed c' o' →
      ("--enable-opencl" ∉ args → c.enable_opencl = false → c'.enable_opencl = false) ∧
      ("--enable-vulkan" ∉ args → c.enable_vulkan = false → c'.enable_vulkan = false) ∧
      ("-j" ∉ args → "--jobs" ∉ args → c'.jobs = c.jobs) := by
  induction c, o, args using parse_arguments.induct <;> intro c' o' hp
  case case1 c o =>
    simp only [parse_arguments] at hp
    injection hp with e1 e2
    subst e1; subst e2
    exact ⟨fun _ h => h, fun _ h => h, fun _ _ => rfl⟩
  case case2 c o arg rest h =>
    rcases h with rfl | rfl <;> cases rest <;>
      simp only [parse_arguments] at hp <;>
      try exact ParseResult.noConfusion hp
  case case4 c o arg h1 h2 =>
    rcases h2 with rfl | rfl <;> simp only [parse_arguments] at hp <;>
      (injection hp with e1 e2; subst e1; subst e2;
       exact ⟨fun _ h => h, fun _ h => h, fun _ _ => rfl⟩)
  case case6 c o arg h1 h2 h3 =>
    rcases h3 with rfl | rfl <;> simp only [parse_arguments] at hp <;>
      (injection hp with e1 e2; subst e1; subst e2;
       exact ⟨fun _ h => h, fun _ h => h, fun _ _ => rfl⟩)
  case case8 c o arg h1 h2 h3 h4 =>
    rcases h4 with rfl | rfl <;> simp only [parse_arguments] at hp <;>
      (injection hp with e1 e2; subst e1; subst e2;
       exact ⟨fun _ h => h, fun _ h => h, fun _ _ => rfl⟩)
  case case11 c o h1 h2 h3 h4 h5 =>
    simp only [parse_arguments] at hp
    injection hp with e1 e2
    subst e1; subst e2
    exact ⟨fun _ h => h, fun _ h => h, fun _ _ => rfl⟩
  case case13 c o h1 h2 h3 h4 h5 h6 =>
    simp only [parse_arguments] at hp
    injection hp with e1 e2
    subst e1; subst e2
    exact ⟨fun _ h => h, fun _ h => h, fun _ _ => rfl⟩
  all_goals try (rename_i ih)
  all_goals try (rename_i hpos v rest2; rcases hpos with rfl | rfl)
  all_goals try (rename_i hpos; rcases hpos with rfl | rfl)
  all_goals rw [parse_arguments.eq_def] at hp
  all_goals simp at hp
  all_goals refine ⟨fun hm hf => ?_, fun hm hf => ?_, fun hm1 hm2 => ?_⟩
  all_goals simp_all

/-- A token handled by no branch of the argument loop is skipped: the
loop continues on the remaining tokens with the state unchanged. -/
theorem parse_skips_unrecognized (tok : String) (htok : tok ∉ recognizedFlags) :
    ∀ (c : BuildConfig) (o : MainOpts) (rest : List String),
      parse_arguments c o (tok :: rest) = parse_arguments c o rest := by
  intro c o rest
  simp only [recognizedFlags, List.mem_cons, List.not_mem_nil, or_false, not_or] at htok
  obtain ⟨e1, e2, e3, e4, e5, e6, e7, e8, e9, e10, e11,
          e12, e13, e14, e15, e16, e17, e18, e19, e20, e21, e22⟩ := htok
  rw [parse_arguments.eq_def]
  simp [e1, e2, e3, e4, e5, e6, e7, e8, e9, e10, e11,
        e12, e13, e14, e15, e16, e17, e18, e19, e20, e21, e22]

/-- Processing `--disable-gpu` clears the GPU, OpenCL and Vulkan flags
in one step. -/
theorem parse_disable_gpu_step (c : BuildConfig) (o : MainOpts) (rest : List String) :
    parse_arguments c o ("--disable-gpu" :: rest)
      = parse_arguments
          { c with install_gpu_blobs := false, enable_opencl := false, enable_vulkan := false }
          o rest := by
  rw [parse_arguments.eq_def]; simp

/-- Processing `--enable-gpu` sets only the GPU flag. -/
theorem parse_enable_gpu_step (c : BuildConfig) (o : MainOpts) (rest : List String) :
    parse_arguments c o ("--enable-gpu" :: rest)
      = parse_arguments { c with install_gpu_blobs := true } o rest := by
  rw [parse_arguments.eq_def]; simp

/-- Processing `-j` with a value stores `atoi` of the value. -/
theorem parse_jobs_step (c : BuildConfig) (o : MainOpts) (v : String) (rest : List String) :
    parse_arguments c o ("-j" :: v :: rest)
      = parse_arguments { c with jobs := atoi v } o rest := by
  rw [parse_arguments.eq_def]; simp

/-- C1: `--disable-gpu` forces the GPU-blob, OpenCL and Vulkan flags all
to false; a later `--enable-gpu` restores only the GPU-blob flag, so the
OpenCL and Vulkan flags stay false unless an explicit `--enable-opencl`
or `--enable-vulkan` follows the disable; in particular
`--disable-gpu --enable-gpu` yields GPU on, OpenCL off, Vulkan off. -/
theorem C1_disable_gpu_forces_apis_off :
    (∀ (c : BuildConfig) (o : MainOpts) (rest : List String),
        parse_arguments c o ("--disable-gpu" :: rest)
          = parse_arguments
              { c with install_gpu_blobs := false, enable_opencl := false,
                       enable_vulkan := false } o rest)
    ∧ (∀ (c : BuildConfig) (o : MainOpts) (rest : List String),
        parse_arguments c o ("--enable-gpu" :: rest)
          = parse_arguments { c with install_gpu_blobs := true } o rest)
    ∧ (∀ (c : BuildConfig) (o : MainOpts) (rest : List String) (c' : BuildConfig)
          (o' : MainOpts),
        parse_arguments c o ("--disable-gpu" :: rest) = .parsed c' o' →
        "--enable-opencl" ∉ rest → c'.enable_opencl = false)
    ∧ (∀ (c : BuildConfig) (o : MainOpts) (rest : List String) (c' : BuildConfig)
          (o' : MainOpts),
        parse_arguments c o ("--disable-gpu" :: rest) = .parsed c' o' →
        "--enable-vulkan" ∉ rest → c'.enable_vulkan = false)
    ∧ parse_arguments defaultConfig defaultOpts ["--disable-gpu", "--enable-gpu"]
        = .parsed
            { defaultConfig with
                install_gpu_blobs := true, enable_opencl := false, enable_vulkan := false }
            defaultOpts := by
  refine ⟨parse_disable_gpu_step, parse_enable_gpu_step, ?_, ?_, by decide⟩
  · intro c o rest c' o' hp hmem
    rw [parse_disable_gpu_step] at hp
    exact (parse_preserve _ _ _ _ _ hp).1 hmem (by simp)
  · intro c o rest c' o' hp hmem
    rw [parse_disable_gpu_step] at hp
    exact (parse_preserve _ _ _ _ _ hp).2.1 hmem (by simp)

/-- Witness for C1: the propagation clauses applied to the concrete run
`--disable-gpu --enable-gpu`. -/
theorem C1_disable_gpu_forces_apis_off_witness :
    ({ defaultConfig with
         install_gpu_blobs := true, enable_opencl := false,
         enable_vulkan := false } : BuildConfig).enable_opencl = false
    ∧ ({ defaultConfig with
           install_gpu_blobs := true, enable_opencl := false,
           enable_vulkan := false } : BuildConfig).enable_vulkan = false :=
  ⟨C1_disable_gpu_forces_apis_off.2.2.1 defaultConfig defaultOpts ["--enable-gpu"]
      { defaultConfig with
          install_gpu_blobs := true, enable_opencl := false, enable_vulkan := false }
      defaultOpts (by decide) (by decide),
   C1_disable_gpu_forces_apis_off.2.2.2.1 defaultConfig defaultOpts ["--enable-gpu"]
      { defaultConfig with
          install_gpu_blobs := true, enable_opencl := false, enable_vulkan := false }
      defaultOpts (by decide) (by decide)⟩

/-- C2 counterexample: the token `--bogus-flag` matches no branch of the
argument loop, yet parsing reports no error (there is no error outcome:
the result equals the parse of the empty argument list) and the run
proceeds through the pipeline stages to exit status 0. -/
theorem C2_counterexample_bogus_flag_runs :
    parse_arguments defaultConfig defaultOpts ["--bogus-flag"]
      = .parsed defaultConfig defaultOpts
    ∧ builder_main ["--bogus-flag"] 4 allOk = builder_main [] 4 allOk
    ∧ (builder_main ["--bogus-flag"] 4 allOk).1 = 0
    ∧ Step.setupEnv ∈ (builder_main ["--bogus-flag"] 4 allOk).2 := by decide

/-- C2 (amended): a command-line token that is not one of the recognized
flags (and not consumed as a value) is silently ignored: the loop state
is unchanged and the whole run behaves exactly as if the token were
absent. -/
theorem C2_unrecognized_token_silently_ignored :
    ∀ (tok : String), tok ∉ recognizedFlags →
      (∀ (c : BuildConfig) (o : MainOpts) (rest : List String),
          parse_arguments c o (tok :: rest) = parse_arguments c o rest)
      ∧ (∀ (args : List String) (nprocs : Int) (rs : StepResults),
          builder_main (tok :: args) nprocs rs = builder_main args nprocs rs) := by
  intro tok htok
  refine ⟨parse_skips_unrecognized tok htok, ?_⟩
  intro args nprocs rs
  unfold builder_main
  rw [parse_skips_unrecognized tok htok]

/-- Witness for C2 (amended) at the concrete token `--bogus-flag`. -/
theorem C2_unrecognized_token_silently_ignored_witness :
    "--bogus-flag" ∉ recognizedFlags
    ∧ parse_arguments defaultConfig defaultOpts ["--bogus-flag"]
        = parse_arguments defaultConfig defaultOpts [] :=
  ⟨by decide,
   (C2_unrecognized_token_silently_ignored "--bogus-flag" (by decide)).1
      defaultConfig defaultOpts []⟩

/-- C4 counterexample: supplying the literal integer 0 as the jobs value
leaves `config.jobs = 0`, so `main` replaces it with the processor count
(here 8); the resulting job count is 8, not the supplied literal 0. -/
theorem C4_counterexample_jobs_zero :
    parse_arguments defaultConfig defaultOpts ["-j", "0"]
      = .parsed defaultConfig defaultOpts
    ∧ resolveJobs defaultConfig 8 = 8
    ∧ resolveJobs defaultConfig 8 ≠ 0 := by decide

/-- C4 (amended): with no `-j`/`--jobs` flag the job count is the
detected processor count; with a supplied value whose `atoi` is nonzero
(and no later jobs flag) it is exactly that parsed integer; `--jobs`
behaves identically to `-j`.  A supplied value parsing to 0 is treated
as if the flag were absent. -/
theorem C4_jobs_resolution :
    (∀ (args : List String) (c' : BuildConfig) (o' : MainOpts) (nprocs : Int),
        "-j" ∉ args → "--jobs" ∉ args →
        parse_arguments defaultConfig defaultOpts args = .parsed c' o' →
        resolveJobs c' nprocs = nprocs)
    ∧ (∀ (c : BuildConfig) (o : MainOpts) (v : String) (rest : List String)
          (c' : BuildConfig) (o' : MainOpts) (nprocs : Int),
        atoi v ≠ 0 → "-j" ∉ rest → "--jobs" ∉ rest →
        parse_arguments c o ("-j" :: v :: rest) = .parsed c' o' →
        resolveJobs c' nprocs = atoi v)
    ∧ (∀ (c : BuildConfig) (o : MainOpts) (rest : List String),
        parse_arguments c o ("--jobs" :: rest) = parse_arguments c o ("-j" :: rest)) := by
  refine ⟨?_, ?_, ?_⟩
  · intro args c' o' nprocs hm1 hm2 hp
    have hj := (parse_preserve _ _ _ _ _ hp).2.2 hm1 hm2
    simp [resolveJobs, hj, defaultConfig]
  · intro c o v rest c' o' nprocs hv hm1 hm2 hp
    rw [parse_jobs_step] at hp
    have hj := (parse_preserve _ _ _ _ _ hp).2.2 hm1 hm2
    simp only at hj
    simp [resolveJobs, hj, hv]
  · intro c o rest
    cases rest with
    | nil =>
      conv_lhs => rw [parse_arguments.eq_def]
      conv_rhs => rw [parse_arguments.eq_def]
      simp
    | cons v rest2 =>
      conv_lhs => rw [parse_arguments.eq_def]
      conv_rhs => rw [parse_arguments.eq_def]
      simp

/-- Witness for C4 (amended): a concrete `-j 1` run resolves to exactly
1 job. -/
theorem C4_jobs_resolution_witness :
    atoi "1" ≠ 0 ∧ resolveJobs { defaultConfig with jobs := 1 } 8 = atoi "1" :=
  ⟨by decide,
   C4_jobs_resolution.2.1 defaultConfig defaultOpts "1" []
      { defaultConfig with jobs := 1 } defaultOpts 8
      (by decide) (by decide) (by decide) (by decide)⟩

/-- C3: with `show_output` set, `execute_command` appends
` 2>&1 | tee -a /tmp/kernel_build.log` to the command and returns 0
exactly when the composed pipeline's reported status is 0; under POSIX
pipeline semantics that status is `tee`'s status, so the result tracks
the log-append and is independent of the wrapped command's own status. -/
theorem C3_show_output_success_is_tee_success :
    ∀ (cmd : String) (sys : String → Int),
      composedShowCmd cmd = cmd ++ " 2>&1 | tee -a /tmp/kernel_build.log"
      ∧ (execute_command cmd true sys = 0 ↔ sys (composedShowCmd cmd) = 0)
      ∧ (∀ (cmdStatus teeStatus : Int),
          sys (composedShowCmd cmd) = pipelineStatus cmdStatus teeStatus →
          (execute_command cmd true sys = 0 ↔ teeStatus = 0)) := by
  intro cmd sys
  refine ⟨?_, ?_, ?_⟩
  · simp [composedShowCmd, LOG_FILE, String.append_assoc]
  · simp [execute_command]
  · intro cs ts h
    simp [execute_command, h, pipelineStatus]

/-- Witness for C3: a wrapped command exiting 7 piped into a `tee`
exiting 0 makes `execute_command` report success. -/
theorem C3_show_output_success_is_tee_success_witness :
    (fun _ : String => (0 : Int)) (composedShowCmd "make") = pipelineStatus 7 0
    ∧ (execute_command "make" true (fun _ => (0 : Int)) = 0 ↔ (0 : Int) = 0) :=
  ⟨rfl, (C3_show_output_success_is_tee_success "make" (fun _ => (0 : Int))).2.2 7 0 rfl⟩

/-- C5: with GPU blobs enabled, a failing firmware `wget` makes
`download_mali_blobs` fail, and `main` then jumps to the error exit:
status 1 and none of driver install, OpenCL setup, Vulkan setup, kernel
source download, configure, build or install is executed. -/
theorem C5_firmware_download_failure_aborts :
    ∀ (c : BuildConfig) (o : MainOpts) (rs : StepResults) (drvOk vkOk cloneOk : Bool),
      c.install_gpu_blobs = true →
      rs.depsOk = true → rs.rootOk = true → rs.setupEnv = true → rs.installPrereq = true →
      rs.downloadBlobs
        = download_mali_blobs c.enable_vulkan true true false drvOk vkOk cloneOk →
      (runPipeline c o rs).1 = 1
      ∧ Step.installDrivers ∉ (runPipeline c o rs).2
      ∧ Step.setupOpenCL ∉ (runPipeline c o rs).2
      ∧ Step.setupVulkan ∉ (runPipeline c o rs).2
      ∧ Step.downloadKernel ∉ (runPipeline c o rs).2
      ∧ Step.configureKernel ∉ (runPipeline c o rs).2
      ∧ Step.buildKernel ∉ (runPipeline c o rs).2
      ∧ Step.installKernel ∉ (runPipeline c o rs).2 := by
  intro c o rs drvOk vkOk cloneOk hgpu h1 h2 h3 h4 hdl
  have hblob : rs.downloadBlobs = false := by
    rw [hdl]; simp [download_mali_blobs]
  simp [runPipeline, h1, h2, h3, h4, hgpu, hblob]

/-- Witness for C5: the default configuration with every call succeeding
except the firmware download. -/
theorem C5_firmware_download_failure_aborts_witness :
    (runPipeline defaultConfig defaultOpts { allOk with downloadBlobs := false }).1 = 1
    ∧ Step.installDrivers ∉ (runPipeline defaultConfig defaultOpts
        { allOk with downloadBlobs := false }).2
    ∧ Step.setupOpenCL ∉ (runPipeline defaultConfig defaultOpts
        { allOk with downloadBlobs := false }).2
    ∧ Step.setupVulkan ∉ (runPipeline defaultConfig defaultOpts
        { allOk with downloadBlobs := false }).2
    ∧ Step.downloadKernel ∉ (runPipeline defaultConfig defaultOpts
        { allOk with downloadBlobs := false }).2
    ∧ Step.configureKernel ∉ (runPipeline defaultConfig defaultOpts
        { allOk with downloadBlobs := false }).2
    ∧ Step.buildKernel ∉ (runPipeline defaultConfig defaultOpts
        { allOk with downloadBlobs := false }).2
    ∧ Step.installKernel ∉ (runPipeline defaultConfig defaultOpts
        { allOk with downloadBlobs := false }).2 :=
  C5_firmware_download_failure_aborts defaultConfig defaultOpts
    { allOk with downloadBlobs := false } true true true
    (by decide) (by decide) (by decide) (by decide) (by decide) (by decide)

/-- C6: once inside the build directory, `download_kernel_source` tries
the vendor clone first, tries the mainline clone at tag
`v<kernel_version>` exactly when the vendor clone fails, succeeds
exactly when either clone succeeds, and fails exactly when both fail. -/
theorem C6_kernel_source_clone_fallback :
    ∀ (c : BuildConfig) (exec : String → Bool),
      (download_kernel_source c true exec).1
        = (exec vendorCloneCmd || exec (mainlineCloneCmd c.kernel_version))
      ∧ (download_kernel_source c true exec).2
        = (if exec vendorCloneCmd then [vendorCloneCmd]
           else [vendorCloneCmd, mainlineCloneCmd c.kernel_version])
      ∧ mainlineCloneCmd c.kernel_version
        = "git clone --depth 1 --branch v" ++ c.kernel_version
          ++ " https://git.kernel.org/pub/scm/linux/kernel/git/torvalds/linux.git linux" := by
  intro c exec
  refine ⟨?_, ?_, rfl⟩ <;>
    cases h1 : exec vendorCloneCmd <;>
    cases h2 : exec (mainlineCloneCmd c.kernel_version) <;>
    simp [download_kernel_source, h1, h2]

/-- C7: `setup_vulkan_support` returns success immediately with no write
when the Vulkan flag is off; otherwise it fails exactly when the ICD
directory cannot be created or the descriptor cannot be opened, and on
success writes format version 1.0.0, API version 1.2.131, and the
Vulkan-variant driver path when present, else the standard path. -/
theorem C7_vulkan_setup_descriptor :
    ∀ (ev mk op vp : Bool),
      (ev = false → setup_vulkan_support ev mk op vp = (true, none))
      ∧ (ev = true →
          (((setup_vulkan_support ev mk op vp).1 = true) ↔ (mk = true ∧ op = true)))
      ∧ (ev = true → mk = true → op = true →
          (setup_vulkan_support ev mk op vp).2
            = some { file_format_version := "1.0.0"
                     library_path :=
                       if vp then maliVulkanDriverPath else maliStandardDriverPath
                     api_version := "1.2.131" }) := by
  intro ev mk op vp
  cases ev <;> cases mk <;> cases op <;> cases vp <;> simp [setup_vulkan_support]

/-- Witness for C7: Vulkan off returns success without writing; Vulkan
on with a creatable directory, writable file and no variant installed
writes the standard-driver descriptor. -/
theorem C7_vulkan_setup_descriptor_witness :
    setup_vulkan_support false true true true = (true, none)
    ∧ ((setup_vulkan_support true true true false).1 = true ↔ (true = true ∧ true = true))
    ∧ (setup_vulkan_support true true true false).2
        = some { file_format_version := "1.0.0"
                 library_path := if false then maliVulkanDriverPath else maliStandardDriverPath
                 api_version := "1.2.131" } :=
  ⟨(C7_vulkan_setup_descriptor false true true true).1 rfl,
   (C7_vulkan_setup_descriptor true true true false).2.1 rfl,
   (C7_vulkan_setup_descriptor true true true false).2.2 rfl rfl rfl⟩

/-- C8: with the GPU-blob flag off, `main` never calls blob download,
driver install, OpenCL setup or Vulkan setup, while (given the fatal
steps succeed) still calling kernel source download, configure, build
and, unless `--no-install` was given, install. -/
theorem C8_disable_gpu_skips_gpu_stages :
    ∀ (c : BuildConfig) (o : MainOpts) (rs : StepResults),
      c.install_gpu_blobs = false →
      rs.depsOk = true → rs.rootOk = true → rs.setupEnv = true → rs.installPrereq = true →
      rs.downloadKernel = true → rs.configureKernel = true → rs.buildKernel = true →
      (Step.downloadBlobs ∉ (runPipeline c o rs).2
       ∧ Step.installDrivers ∉ (runPipeline c o rs).2
       ∧ Step.setupOpenCL ∉ (runPipeline c o rs).2
       ∧ Step.setupVulkan ∉ (runPipeline c o rs).2)
      ∧ (Step.downloadKernel ∈ (runPipeline c o rs).2
         ∧ Step.configureKernel ∈ (runPipeline c o rs).2
         ∧ Step.buildKernel ∈ (runPipeline c o rs).2)
      ∧ (o.no_install = false → Step.installKernel ∈ (runPipeline c o rs).2) := by
  intro c o rs hgpu h1 h2 h3 h4 h5 h6 h7
  cases hni : o.no_install <;> cases hic : rs.installKernel <;>
    cases hvg : o.verify_gpu <;> cases hcl : o.cleanup <;>
    simp [runPipeline, pipelineTail, hgpu, h1, h2, h3, h4, h5, h6, h7, hni, hic, hvg, hcl]

/-- Witness for C8: a `--disable-gpu` configuration with every call
succeeding. -/
theorem C8_disable_gpu_skips_gpu_stages_witness :
    (Step.downloadBlobs ∉ (runPipeline { defaultConfig with install_gpu_blobs := false }
        defaultOpts allOk).2
     ∧ Step.installDrivers ∉ (runPipeline { defaultConfig with install_gpu_blobs := false }
        defaultOpts allOk).2
     ∧ Step.setupOpenCL ∉ (runPipeline { defaultConfig with install_gpu_blobs := false }
        defaultOpts allOk).2
     ∧ Step.setupVulkan ∉ (runPipeline { defaultConfig with install_gpu_blobs := false }
        defaultOpts allOk).2)
    ∧ (Step.downloadKernel ∈ (runPipeline { defaultConfig with install_gpu_blobs := false }
        defaultOpts allOk).2
       ∧ Step.configureKernel ∈ (runPipeline { defaultConfig with install_gpu_blobs := false }
        defaultOpts allOk).2
       ∧ Step.buildKernel ∈ (runPipeline { defaultConfig with install_gpu_blobs := false }
        defaultOpts allOk).2)
    ∧ (defaultOpts.no_install = false →
        Step.installKernel ∈ (runPipeline { defaultConfig with install_gpu_blobs := false }
          defaultOpts allOk).2) :=
  C8_disable_gpu_skips_gpu_stages { defaultConfig with install_gpu_blobs := false }
    defaultOpts allOk (by decide) (by decide) (by decide) (by decide) (by decide)
    (by decide) (by decide) (by decide)

/-- C9: `verify_gpu_installation` reports failure when the firmware file
or the driver library is missing, `main` never reads its return value
(the run result is invariant in it), and whenever the mandatory stages
succeed the exit status is 0 whatever the verification outcome. -/
theorem C9_verification_failure_is_nonfatal :
    (∀ (fw drv ocl vk clm vkm : Bool),
        fw = false ∨ drv = false →
        verify_gpu_installation fw drv ocl vk clm vkm = false)
    ∧ (∀ (c : BuildConfig) (o : MainOpts) (rs : StepResults) (v1 v2 : Bool),
        runPipeline c o { rs with verifyGpu := v1 }
          = runPipeline c o { rs with verifyGpu := v2 })
    ∧ (∀ (c : BuildConfig) (o : MainOpts) (rs : StepResults),
        rs.depsOk = true → rs.rootOk = true → rs.setupEnv = true →
        rs.installPrereq = true → rs.downloadBlobs = true → rs.installDrivers = true →
        rs.setupOpenCL = true → rs.setupVulkan = true → rs.downloadKernel = true →
        rs.configureKernel = true → rs.buildKernel = true → rs.installKernel = true →
        (runPipeline c o rs).1 = 0) := by
  refine ⟨?_, ?_, ?_⟩
  · intro fw drv ocl vk clm vkm h
    rcases h with rfl | rfl
    · simp [verify_gpu_installation]
    · cases fw <;> simp [verify_gpu_installation]
  · intro c o rs v1 v2
    rfl
  · intro c o rs h1 h2 h3 h4 h5 h6 h7 h8 h9 h10 h11 h12
    cases hgpu : c.install_gpu_blobs <;> cases hni : o.no_install <;>
      cases hvg : o.verify_gpu <;> cases hcl : o.cleanup <;>
      simp [runPipeline, pipelineTail, h1, h2, h3, h4, h5, h6, h7, h8, h9, h10, h11, h12,
            hgpu, hni, hvg, hcl]

/-- Witness for C9: missing firmware makes verification report failure,
yet the run with that failed verification exits 0. -/
theorem C9_verification_failure_is_nonfatal_witness :
    verify_gpu_installation false true true true true true = false
    ∧ (runPipeline defaultConfig { defaultOpts with verify_gpu := true }
        { allOk with verifyGpu := false }).1 = 0 :=
  ⟨C9_verification_failure_is_nonfatal.1 false true true true true true (Or.inl rfl),
   C9_verification_failure_is_nonfatal.2.2 defaultConfig
     { defaultOpts with verify_gpu := true } { allOk with verifyGpu := false }
     (by decide) (by decide) (by decide) (by decide) (by decide) (by decide)
     (by decide) (by decide) (by decide) (by decide) (by decide) (by decide)⟩

/-- C10: the directive block is appended only when `.config` opens for
appending; a failed open changes neither the return value nor the log
output — the step still reports success (when a defconfig target
succeeded) with nothing appended, so configure success does not imply
the block is present. -/
theorem C10_config_append_silent_on_open_failure :
    ∀ (c : BuildConfig) (chdirOk : Bool) (exec : String → Bool),
      (configure_kernel c chdirOk exec false).ok = (configure_kernel c chdirOk exec true).ok
      ∧ (configure_kernel c chdirOk exec false).logs
          = (configure_kernel c chdirOk exec true).logs
      ∧ (configure_kernel c chdirOk exec false).appended = []
      ∧ (chdirOk = true →
          (exec ("make " ++ c.defconfig) = true ∨ exec "make defconfig" = true) →
          (configure_kernel c chdirOk exec false).ok = true
          ∧ (configure_kernel c chdirOk exec true).appended = config_options) := by
  intro c chdirOk exec
  cases chdirOk <;> cases hcb : c.clean_build <;>
    cases hmr : exec "make mrproper" <;>
    cases hd1 : exec ("make " ++ c.defconfig) <;>
    cases hd2 : exec "make defconfig" <;>
    cases hod : exec "make olddefconfig" <;>
    simp [configure_kernel, hcb, hmr, hd1, hd2, hod]

/-- Witness for C10: with every `make` succeeding, the failed-open run
reports success with nothing appended while the successful-open run
appends the directive block. -/
theorem C10_config_append_silent_on_open_failure_witness :
    (configure_kernel defaultConfig true (fun _ => true) false).ok = true
    ∧ (configure_kernel defaultConfig true (fun _ => true) false).appended = []
    ∧ (configure_kernel defaultConfig true (fun _ => true) true).appended = config_options :=
  ⟨((C10_config_append_silent_on_open_failure defaultConfig true (fun _ => true)).2.2.2
      rfl (Or.inl rfl)).1,
   (C10_config_append_silent_on_open_failure defaultConfig true (fun _ => true)).2.2.1,
   ((C10_config_append_silent_on_open_failure defaultConfig true (fun _ => true)).2.2.2
      rfl (Or.inl rfl)).2⟩
